import Mathlib

/-!
Shallow embedding of the indicator-derivation core of pydemic-ui
(src/pydemic_ui/ui/output_components.py and src/pydemic_ui/apps/calc.py).

Modelling conventions: numbers that Python holds as floats are exact
rationals; the Python int() conversion is truncation toward zero
(pyTrunc); values that may be None are Option; a Python
ZeroDivisionError is surfaced as Except.error; calendar dates are
abstracted as day ordinals (Nat); user-facing message templates are
represented by constructors carrying their raw numeric and date
payloads, since string templating and number formatting (fmt, pc,
babel.dates.format_date) are presentation concerns external to the core.
-/

namespace PydemicUI

/-- Python int() conversion on a number: truncation toward zero. -/
def pyTrunc (q : ℚ) : ℤ :=
  if 0 ≤ q then ⌊q⌋ else ⌈q⌉

/-- A date-like value as consumed by natural_date in output_components.py:
an already formatted string, the absent value None, or a calendar date. -/
inductive DateLike (Date : Type) where
  | str (s : String)
  | none
  | date (d : Date)
  deriving DecidableEq

/-- Embeds natural_date (output_components.py lines 243 to 254): a string
input is returned as is, None maps to the Not soon sentinel, and a date
is rendered by babel.dates.format_date with the short format. The
formatter is an external collaborator fixed by the ambient locale, so it
is passed in as a function argument. -/
def natural_date {Date : Type} (format_short : Date → String) :
    DateLike Date → String
  | .str s => s
  | .none => "Not soon..."
  | .date d => format_short d

/-- Outcome of the healthcare_parameters message dispatch: the NO_ICU
message carrying the extra bed count n, the ICU_OVERFLOW message
carrying the crossing date, the integer extra bed count, the surge ratio
and the share of the total capacity, or the GOOD_CAPACITY message. -/
inductive HealthMsg where
  | noIcu (n : ℚ)
  | overflow (date : ℕ) (n : ℤ) (surge : ℚ) (total : ℚ)
  | goodCapacity
  deriving DecidableEq

/-- A Python runtime error surfaced by the embedding. -/
inductive PyError where
  | zeroDivision
  deriving DecidableEq

/-- Embeds the message dispatch of healthcare_parameters
(output_components.py lines 139 to 150). The source branches on
icu_full_capacity == 0, then on the truthiness of icu_overflow_date; in
the overflow branch it sets peak_icu = extra_icu + icu_capacity and
formats n = int(peak_icu - icu_capacity), surge = peak_icu /
icu_capacity and total = peak_icu / icu_full_capacity. The division by
icu_capacity raises ZeroDivisionError in Python exactly when
icu_capacity == 0, which this embedding records as Except.error; the
division by icu_full_capacity cannot raise because that branch requires
icu_full_capacity to be nonzero. -/
def healthcare_parameters (icu_capacity icu_full_capacity extra_icu : ℚ)
    (icu_overflow_date : Option ℕ) : Except PyError HealthMsg :=
  if icu_full_capacity = 0 then
    .ok (.noIcu extra_icu)
  else
    match icu_overflow_date with
    | some d =>
        if icu_capacity = 0 then .error .zeroDivision
        else
          .ok (.overflow d
            (pyTrunc (extra_icu + icu_capacity - icu_capacity))
            ((extra_icu + icu_capacity) / icu_capacity)
            ((extra_icu + icu_capacity) / icu_full_capacity))
    | none => .ok .goodCapacity

/-- Embeds the ICU overflow date selection of summary_cards
(output_components.py lines 74 to 77): when icu_capacity > 0 the date
indicator from the results table is passed through, otherwise it is
replaced by the No ICU beds string sentinel. -/
def summary_cards_icu_overflow_date (icu_capacity : ℚ)
    (dates_icu_overflow : DateLike ℕ) : DateLike ℕ :=
  if icu_capacity > 0 then dates_icu_overflow else .str "No ICU beds!"

/-- Outcome of the peak date policy of summary_cards: either the Still
coming sentinel or the reported peak date passed through. -/
inductive PeakResult where
  | stillComing
  | date (d : ℕ)
  deriving DecidableEq

/-- Embeds the peak date policy of summary_cards (output_components.py
lines 85 to 87): a peak reported exactly on the final simulated date is
replaced by the Still coming sentinel, otherwise it passes through. -/
def summary_cards_peak_cases (peak_date final_date : ℕ) : PeakResult :=
  if peak_date = final_date then .stillComing else .date peak_date

/-- The derived display quantities of epidemiological_parameters. -/
structure EpiParams where
  mortality : ℚ
  fatality : ℚ
  infected : ℚ
  symptomatic : ℚ
  deriving DecidableEq

/-- Embeds the derived quantities of epidemiological_parameters
(output_components.py lines 156 to 171): the mortality indicator is
multiplied by 100000 in place; fatality, infected and symptomatic are
rendered as percentages by pc, modelled as multiplication by 100. -/
def epidemiological_parameters
    (deaths_pp empirical_cfr infected_pp prob_symptoms : ℚ) : EpiParams :=
  ⟨deaths_pp * 100000, empirical_cfr * 100, infected_pp * 100,
    prob_symptoms * 100⟩

/-- The equipment demand table of healthcare_equipment_resources: the
patient day count n and the rows (item name, per patient day rate,
total). -/
structure PPETable where
  n : ℤ
  rows : List (String × ℚ × ℚ)
  deriving DecidableEq

/-- Embeds healthcare_equipment_resources (output_components.py lines
216 to 240): N = int(hospital_days + icu_days) with Python truncation;
each catalog row is (name, rate, rate * N); the configurable
coefficients a and b both default to 1 in the source. -/
def healthcare_equipment_resources (hospital_days icu_days : ℚ) : PPETable :=
  let N : ℤ := pyTrunc (hospital_days + icu_days)
  let a : ℚ := 1
  let b : ℚ := 1
  ⟨N, [("Cirurgical masks", 25, 25 * (N : ℚ)),
       ("N95 mask", a, a * (N : ℚ)),
       ("Waterproof apron", 25, 25 * (N : ℚ)),
       ("Non-sterile glove", 50, 50 * (N : ℚ)),
       ("Faceshield", b, b * (N : ℚ))]⟩

/-- The 5 compartment initial state (S, E, A, I, R). -/
structure InitialState where
  S : ℚ
  E : ℚ
  A : ℚ
  I : ℚ
  R : ℚ
  deriving DecidableEq

/-- Embeds the initial condition computation of model (apps/calc.py
lines 129 to 137): the compartments are computed from the daily case
count and the disease parameters and handed to the engine via set_ic
with no validation anywhere; the function is total and never raises. -/
def model (daily_cases incubation_period infectious_period Qs
    population : ℚ) : InitialState :=
  let R : ℚ := 0
  let E := daily_cases * incubation_period
  let I := daily_cases * infectious_period * Qs
  let A := daily_cases * infectious_period * (1 - Qs)
  let S := population - E - A - I - R
  ⟨S, E, A, I, R⟩

/-- C1 counterexample: with dedicated capacity C = 0 but full capacity
F = 50, peak occupancy P = 30 and no crossing date, the
healthcare_parameters dispatch returns the good capacity message and
not the no dedicated capacity sentinel with extra = P: the source
guards the sentinel on icu_full_capacity == 0, not on the dedicated
capacity. -/
theorem C1_counterexample :
    healthcare_parameters 0 50 30 none = .ok .goodCapacity ∧
    healthcare_parameters 0 50 30 none ≠ .ok (.noIcu 30) := by
  constructor
  · norm_num [healthcare_parameters]
  · norm_num [healthcare_parameters]
    exact fun h => HealthMsg.noConfusion h

/-- C1 amended: with C = 0 the summary_cards component always replaces
the ICU overflow date with the No ICU beds sentinel regardless of F or
D, while the no dedicated capacity message of healthcare_parameters
with extra equal to the peak occupancy P is produced only when
additionally the full capacity F is 0 (under the capacity contract
F at least C at least 0, F = 0 forces C = 0, and the extra_icu input,
which equals P - C, then equals P). -/
theorem C1_amended (C F P : ℚ) (D : Option ℕ) (d : DateLike ℕ)
    (hC : C = 0) :
    summary_cards_icu_overflow_date C d = .str "No ICU beds!" ∧
    (F = 0 → healthcare_parameters C F (P - C) D = .ok (.noIcu P)) ∧
    (¬(F = 0) →
      ∀ n, healthcare_parameters C F (P - C) D ≠ .ok (.noIcu n)) := by
  subst hC
  refine ⟨?_, ?_, ?_⟩
  · simp [summary_cards_icu_overflow_date]
  · intro hF
    subst hF
    simp [healthcare_parameters]
  · intro hF n
    cases D with
    | some d2 =>
        intro h
        simp only [healthcare_parameters, if_neg hF] at h
        rw [if_true] at h
        exact Except.noConfusion h
    | none =>
        intro h
        simp only [healthcare_parameters, if_neg hF] at h
        exact HealthMsg.noConfusion (Except.ok.inj h)

/-- C1 witness: the amended statement evaluated at C = 0 and P = 30
with an absent date indicator, once at F = 0 (the sentinel side of the
exactly-when) and once at F = 50 (the non-production side). -/
theorem C1_witness :
    (summary_cards_icu_overflow_date 0 DateLike.none
        = .str "No ICU beds!" ∧
      ((0 : ℚ) = 0 →
        healthcare_parameters 0 0 (30 - 0) none = .ok (.noIcu 30)) ∧
      (¬((0 : ℚ) = 0) →
        ∀ n, healthcare_parameters 0 0 (30 - 0) none ≠ .ok (.noIcu n))) ∧
    (summary_cards_icu_overflow_date 0 DateLike.none
        = .str "No ICU beds!" ∧
      ((50 : ℚ) = 0 →
        healthcare_parameters 0 50 (30 - 0) none = .ok (.noIcu 30)) ∧
      (¬((50 : ℚ) = 0) →
        ∀ n, healthcare_parameters 0 50 (30 - 0) none ≠ .ok (.noIcu n))) :=
  ⟨C1_amended 0 0 30 none DateLike.none rfl,
    C1_amended 0 50 30 none DateLike.none rfl⟩

/-- C2 counterexample: at daily_cases = 1000, incubation 5, infectious
5, Qs = 1/2 and population 100 the derived S is negative (-9900), yet
model returns the initial state with the negative S: no error is
raised, the state is produced, and the value is passed on unclamped. -/
theorem C2_counterexample :
    (model 1000 5 5 (1/2) 100).S = -9900 ∧ ((-9900 : ℚ) < 0) := by
  constructor
  · norm_num [model]
  · norm_num

/-- C2 amended: when the derived S is negative the builder does not
fail: model still produces the full initial state with every compartment
given by its formula and the negative S passed through unchanged to the
engine, never clamped and never raised as an error. -/
theorem C2_amended (daily_cases inc inf Qs pop : ℚ)
    (_hS : pop - daily_cases * inc - daily_cases * inf * (1 - Qs)
        - daily_cases * inf * Qs - 0 < 0) :
    model daily_cases inc inf Qs pop =
      ⟨pop - daily_cases * inc - daily_cases * inf * (1 - Qs)
          - daily_cases * inf * Qs - 0,
        daily_cases * inc,
        daily_cases * inf * (1 - Qs),
        daily_cases * inf * Qs, 0⟩ := rfl

/-- C2 witness: the amended statement evaluated at the counterexample
input, whose derived S is negative. -/
theorem C2_witness :
    ((100 : ℚ) - 1000 * 5 - 1000 * 5 * (1 - 1/2)
        - 1000 * 5 * (1/2) - 0 < 0) ∧
    model 1000 5 5 (1/2) 100 =
      ⟨100 - 1000 * 5 - 1000 * 5 * (1 - 1/2) - 1000 * 5 * (1/2) - 0,
        1000 * 5, 1000 * 5 * (1 - 1/2), 1000 * 5 * (1/2), 0⟩ :=
  ⟨by norm_num, C2_amended 1000 5 5 (1/2) 100 (by norm_num)⟩

/-- C3: for positive dedicated capacity C with F at least C and a
present crossing date, healthcare_parameters returns the overflow
message carrying that date, the integer extra bed count int(P - C)
(Python int truncation), the surge ratio P / C and the share of total
P / F, where P is the peak occupancy reconstructed in the source as
extra_icu + icu_capacity. -/
theorem C3_overflow (C F P : ℚ) (d : ℕ) (hC : 0 < C) (hCF : C ≤ F) :
    healthcare_parameters C F (P - C) (some d) =
      .ok (.overflow d (pyTrunc (P - C)) (P / C) (P / F)) := by
  have hF : ¬(F = 0) := by
    intro h
    exact absurd (h ▸ lt_of_lt_of_le hC hCF) (lt_irrefl 0)
  have hC0 : ¬(C = 0) := ne_of_gt hC
  have hPC : P - C + C = P := by ring
  simp only [healthcare_parameters, if_neg hF, if_neg hC0, hPC]

/-- C3 witness: at C = 100, F = 500, P = 150 and crossing date 7 the
overflow message carries extra = 50, surge = 3/2 and share = 3/10. -/
theorem C3_witness :
    healthcare_parameters 100 500 (150 - 100) (some 7) =
      .ok (.overflow 7 50 (3/2) (3/10)) := by
  rw [C3_overflow 100 500 150 7 (by norm_num) (by norm_num)]
  norm_num [pyTrunc]

/-- C4 counterexample: at hospital_days = 3/5 and icu_days = 0 the
source computes N = int(3/5) = 0 by Python truncation, while rounding
3/5 + 0 to the nearest integer gives 1, so N is not the nearest
integer to the sum. -/
theorem C4_counterexample :
    (healthcare_equipment_resources (3/5) 0).n = 0 ∧
    round ((3/5 : ℚ) + 0) = 1 ∧
    (healthcare_equipment_resources (3/5) 0).n ≠ round ((3/5 : ℚ) + 0) := by
  have h1 : (healthcare_equipment_resources (3/5) 0).n = 0 := by
    norm_num [healthcare_equipment_resources, pyTrunc]
  have h2 : round ((3/5 : ℚ) + 0) = 1 := by
    norm_num [round_eq]
  exact ⟨h1, h2, by rw [h1, h2]; norm_num⟩

/-- C4 amended: N is the Python int truncation of hospital_days +
icu_days, which for the non negative inputs at hand is the floor of the
sum (not the nearest integer); the per patient day rates are 25, 1, 25,
50, 1 and every row total equals its rate times N. -/
theorem C4_amended (h i : ℚ) (hh : 0 ≤ h) (hi : 0 ≤ i) :
    (healthcare_equipment_resources h i).n = ⌊h + i⌋ ∧
    ((healthcare_equipment_resources h i).rows.map (fun r => r.2.1)) =
      [25, 1, 25, 50, 1] ∧
    ∀ r ∈ (healthcare_equipment_resources h i).rows,
      r.2.2 = r.2.1 * ((healthcare_equipment_resources h i).n : ℚ) := by
  refine ⟨?_, rfl, ?_⟩
  · have hsum : 0 ≤ h + i := add_nonneg hh hi
    simp [healthcare_equipment_resources, pyTrunc, if_pos hsum]
  · intro r hr
    simp only [healthcare_equipment_resources, List.mem_cons,
      List.not_mem_nil, or_false] at hr
    rcases hr with h1 | h1 | h1 | h1 | h1 <;> subst h1 <;>
      simp [healthcare_equipment_resources]

/-- C4 witness: at hospital_days = 80 and icu_days = 20 the amended
statement gives N = 100, and direct evaluation shows the surgical mask
total is 2500 and the glove total is 5000. -/
theorem C4_witness :
    ((healthcare_equipment_resources 80 20).n = ⌊(80 : ℚ) + 20⌋ ∧
      ∀ r ∈ (healthcare_equipment_resources 80 20).rows,
        r.2.2 = r.2.1 * ((healthcare_equipment_resources 80 20).n : ℚ)) ∧
    (healthcare_equipment_resources 80 20).n = 100 ∧
    (healthcare_equipment_resources 80 20).rows.map (fun r => r.2.2) =
      [2500, 100, 2500, 5000, 100] := by
  have h := C4_amended 80 20 (by norm_num) (by norm_num)
  refine ⟨⟨h.1, h.2.2⟩, ?_, ?_⟩
  · rw [h.1]
    rw [show (80 : ℚ) + 20 = ((100 : ℤ) : ℚ) by norm_num, Int.floor_intCast]
  · norm_num [healthcare_equipment_resources, pyTrunc]

/-- C5: the peak policy of summary_cards outputs the Still coming
sentinel exactly when the reported peak date equals the final simulated
date, and otherwise passes the peak date through unchanged. -/
theorem C5_peak (p f : ℕ) :
    (summary_cards_peak_cases p f = .stillComing ↔ p = f) ∧
    (p ≠ f → summary_cards_peak_cases p f = .date p) := by
  by_cases h : p = f
  · subst h
    simp [summary_cards_peak_cases]
  · simp [summary_cards_peak_cases, h]

/-- C5 witness: at peak date 2 and final date 3 the date passes
through, and at peak date 3 equal to final date 3 the sentinel is
produced. -/
theorem C5_witness :
    summary_cards_peak_cases 2 3 = .date 2 ∧
    summary_cards_peak_cases 3 3 = .stillComing :=
  ⟨(C5_peak 2 3).2 (by decide), (C5_peak 3 3).1.mpr rfl⟩

/-- C6: for valid inputs whose derived S is non negative, model
produces exactly E = daily_cases * incubation, I = daily_cases *
infectious * Qs, A = daily_cases * infectious * (1 - Qs), R = 0 and
S = population - E - A - I - R, and the compartments sum exactly to the
population. -/
theorem C6_conservation (daily_cases inc inf Qs pop : ℚ)
    (_h1 : 0 ≤ daily_cases) (_h2 : 0 < pop) (_h3 : 0 < inc) (_h4 : 0 < inf)
    (_h5 : 0 ≤ Qs) (_h6 : Qs ≤ 1)
    (_hS : 0 ≤ (model daily_cases inc inf Qs pop).S) :
    (model daily_cases inc inf Qs pop).E = daily_cases * inc ∧
    (model daily_cases inc inf Qs pop).I = daily_cases * inf * Qs ∧
    (model daily_cases inc inf Qs pop).A = daily_cases * inf * (1 - Qs) ∧
    (model daily_cases inc inf Qs pop).R = 0 ∧
    (model daily_cases inc inf Qs pop).S
      = pop - (model daily_cases inc inf Qs pop).E
        - (model daily_cases inc inf Qs pop).A
        - (model daily_cases inc inf Qs pop).I
        - (model daily_cases inc inf Qs pop).R ∧
    (model daily_cases inc inf Qs pop).S
      + (model daily_cases inc inf Qs pop).E
      + (model daily_cases inc inf Qs pop).A
      + (model daily_cases inc inf Qs pop).I
      + (model daily_cases inc inf Qs pop).R = pop := by
  refine ⟨rfl, rfl, rfl, rfl, rfl, ?_⟩
  show pop - daily_cases * inc - daily_cases * inf * (1 - Qs)
      - daily_cases * inf * Qs - 0 + daily_cases * inc
      + daily_cases * inf * (1 - Qs) + daily_cases * inf * Qs + 0 = pop
  ring

/-- C6 witness: daily_cases = 1, incubation 5, infectious 3, Qs = 1/2,
population 1000 satisfies every validity hypothesis, the derived S is
992, and the compartments sum to 1000. -/
theorem C6_witness :
    (model 1 5 3 (1/2) 1000).S = 992 ∧
    (model 1 5 3 (1/2) 1000).S + (model 1 5 3 (1/2) 1000).E
      + (model 1 5 3 (1/2) 1000).A + (model 1 5 3 (1/2) 1000).I
      + (model 1 5 3 (1/2) 1000).R = 1000 :=
  ⟨by norm_num [model],
    (C6_conservation 1 5 3 (1/2) 1000 (by norm_num) (by norm_num)
      (by norm_num) (by norm_num) (by norm_num) (by norm_num)
      (by norm_num [model])).2.2.2.2.2⟩

/-- C7: for positive dedicated capacity C with F at least C and no
crossing date, healthcare_parameters returns the good capacity message,
whatever the extra_icu indicator is. -/
theorem C7_sufficient (C F extra : ℚ) (hC : 0 < C) (hCF : C ≤ F) :
    healthcare_parameters C F extra none = .ok .goodCapacity := by
  have hF : ¬(F = 0) := by
    intro h
    exact absurd (h ▸ lt_of_lt_of_le hC hCF) (lt_irrefl 0)
  simp [healthcare_parameters, hF]

/-- C7 witness: the statement evaluated at C = 100, F = 500 and an
arbitrary extra value 30. -/
theorem C7_witness :
    healthcare_parameters 100 500 30 none = .ok .goodCapacity :=
  C7_sufficient 100 500 30 (by norm_num) (by norm_num)

/-- C8: the natural_date dispatch is exhaustive over the three input
shapes: a string input is returned unchanged, None maps to the Not soon
sentinel, and a calendar date is rendered by the fixed locale formatter,
a function, hence deterministic for a fixed locale. -/
theorem C8_dispatch (Date : Type) (format_short : Date → String)
    (x : DateLike Date) :
    (∃ s, x = .str s ∧ natural_date format_short x = s) ∨
    (x = .none ∧ natural_date format_short x = "Not soon...") ∨
    (∃ d, x = .date d ∧ natural_date format_short x = format_short d) := by
  cases x with
  | str s => exact .inl ⟨s, rfl, rfl⟩
  | none => exact .inr (.inl ⟨rfl, rfl⟩)
  | date d => exact .inr (.inr ⟨d, rfl, rfl⟩)

/-- C9: the mortality indicator of epidemiological_parameters equals
deaths per population times 100000 exactly, whatever the other
indicators are, and deaths_pp = 1/10000 yields exactly 10. -/
theorem C9_mortality (deaths_pp cfr infected_pp prob_symptoms : ℚ) :
    (epidemiological_parameters deaths_pp cfr infected_pp
        prob_symptoms).mortality = deaths_pp * 100000 ∧
    (epidemiological_parameters (1/10000) cfr infected_pp
        prob_symptoms).mortality = 10 :=
  ⟨rfl, by norm_num [epidemiological_parameters]⟩

/-- C10: failing input for the totality claim: with dedicated capacity
C = 0, full capacity F = 50 (so F at least C at least 0 holds) and a
present crossing date, the overflow branch of healthcare_parameters
divides peak_icu by icu_capacity = 0; the embedding surfaces the
ZeroDivisionError that Python raises at surge = peak_icu /
icu_capacity. -/
theorem C10_div_by_zero :
    healthcare_parameters 0 50 30 (some 5) = .error .zeroDivision := by
  norm_num [healthcare_parameters]

end PydemicUI
